import Mathlib

/-!
Shallow embedding of the python-mal client library (the myanimelist package):
constructor validation, the sidebar / stats / list parsers, and the lazy
attribute cache, with theorems checking the specification claims.
-/

namespace Mal

/-- Abstract parsed values stored in attribute caches and parse-result mappings.
Dates are abstracted as natural day codes; `pubOne d` models the one-element
tuple `(published_date,)` and `pubRange a b` the pair `(publish_start, publish_end)`
built by `Manga.parse_sidebar`. -/
inductive Val where
  | nat (n : Nat)
  | str (s : String)
  | pubOne (d : Nat)
  | pubRange (start : Nat) (stop : Option Nat)
  deriving DecidableEq, Repr

/-- Python runtime values appearing as constructor identity arguments and in the
comparisons the parsers perform. `ustr` is a Python 2 unicode string, `bstr` a
byte string, `listOfStr` a list of unicode strings, `pynone` is None. -/
inductive PyVal where
  | int (n : Int)
  | ustr (s : String)
  | bstr (s : String)
  | listOfStr (xs : List String)
  | pynone
  deriving DecidableEq, Repr

/-- Python 2 `==` on the value shapes the embedded code compares. Values of
different shapes compare unequal; in particular a list never equals a string
(the comparison at manga.py line 141). The int/str coercions of Python 2 are
not modelled because no embedded comparison mixes those shapes. -/
def pyEq : PyVal → PyVal → Bool
  | PyVal.int a, PyVal.int b => a == b
  | PyVal.ustr a, PyVal.ustr b => a == b
  | PyVal.bstr a, PyVal.bstr b => a == b
  | PyVal.listOfStr a, PyVal.listOfStr b => a == b
  | PyVal.pynone, PyVal.pynone => true
  | _, _ => false

/-- Python `unicode(x)` / `str(x)` rendering as used when an error object stores
its identity payload (media_list.py lines 16-19). -/
def pyStrOf : PyVal → String
  | PyVal.int n => toString n
  | PyVal.ustr s => s
  | PyVal.bstr s => s
  | PyVal.listOfStr _ => "[...]"
  | PyVal.pynone => "None"

/-- Python `len` on the shapes that reach it in the embedded code. -/
def pyLen : PyVal → Nat
  | PyVal.ustr s => s.length
  | PyVal.bstr s => s.length
  | PyVal.listOfStr xs => xs.length
  | _ => 0

/-- Python `isinstance(x, int)`. -/
def PyVal.isInt : PyVal → Bool
  | PyVal.int _ => true
  | _ => false

/-- Python `isinstance(x, unicode)`. -/
def PyVal.isUstr : PyVal → Bool
  | PyVal.ustr _ => true
  | _ => false

/-- Value of `int(x)` when `x` is an int; unused default otherwise.
The code only evaluates `int(self.id)` after `isinstance(self.id, int)` held,
because `or` short-circuits (media.py line 89). -/
def PyVal.intVal : PyVal → Int
  | PyVal.int n => n
  | _ => 0

/-- Exceptions raised by the embedded code. `invalidMedia` carries the raw
identity object, as `InvalidMediaError(self.id)` does; malformed-page errors
carry the numeric identity. `extractionError f` stands for the original
exception re-raised when the extraction chain for field `f` failed and
suppression is off. `nameError` models a lookup of an undefined Python name. -/
inductive PyExn where
  | invalidMedia (id : PyVal)
  | invalidAnime (id : PyVal)
  | invalidManga (id : PyVal)
  | invalidPerson (id : PyVal)
  | malformedMediaPage (id : Int)
  | malformedAnimePage (id : Int)
  | malformedMangaPage (id : Int)
  | invalidMediaList (username : String)
  | malformedMediaListPage (username : String)
  | attributeError
  | indexError
  | nameError
  | extractionError (field : String)
  deriving DecidableEq, Repr

/-- Session configuration relevant to parsing: the suppress-parse-errors flag
(`session.suppress_parse_exceptions`). -/
structure Session where
  suppress_parse_exceptions : Bool
  deriving DecidableEq, Repr

/-- State built by `Media.__init__` (media.py lines 75-107): the numeric
identity plus one backing slot per exposed attribute, each initialized to the
unset sentinel None (`none`). -/
structure MediaState where
  id : Int
  title : Option Val
  picture : Option Val
  alternative_titles : Option Val
  type : Option Val
  status : Option Val
  genres : Option Val
  score : Option Val
  rank : Option Val
  popularity : Option Val
  members : Option Val
  favorites : Option Val
  popular_tags : Option Val
  synopsis : Option Val
  related : Option Val
  characters : Option Val
  score_stats : Option Val
  status_stats : Option Val
  deriving DecidableEq, Repr

/-- Embedding of `Media.__init__` (media.py lines 75-107): record the identity,
raise `InvalidMediaError` unless it is an int that is at least 1, and set every
attribute slot to None. The constructor is pure: it issues no fetch and does
not consult the suppression flag. -/
def Media.init (_session : Session) (id : PyVal) : Except PyExn MediaState :=
  if ¬ id.isInt = true ∨ id.intVal < 1 then Except.error (PyExn.invalidMedia id)
  else Except.ok
    { id := id.intVal, title := none, picture := none, alternative_titles := none,
      type := none, status := none, genres := none, score := none, rank := none,
      popularity := none, members := none, favorites := none, popular_tags := none,
      synopsis := none, related := none, characters := none, score_stats := none,
      status_stats := none }

/-- State built by `Anime.__init__` (anime.py lines 34-54): the Media slots plus
the anime-specific slots, all unset. -/
structure AnimeState extends MediaState where
  episodes : Option Val
  aired : Option Val
  producers : Option Val
  duration : Option Val
  rating : Option Val
  voice_actors : Option Val
  staff : Option Val
  deriving DecidableEq, Repr

/-- Embedding of `Anime.__init__` (anime.py lines 34-54): validate the identity
raising `InvalidAnimeError`, then run `Media.__init__` and add the
anime-specific unset slots. -/
def Anime.init (session : Session) (id : PyVal) : Except PyExn AnimeState :=
  if ¬ id.isInt = true ∨ id.intVal < 1 then Except.error (PyExn.invalidAnime id)
  else
    match Media.init session id with
    | Except.error e => Except.error e
    | Except.ok m => Except.ok
      { toMediaState := m, episodes := none, aired := none, producers := none,
        duration := none, rating := none, voice_actors := none, staff := none }

/-- State built by `Manga.__init__` (manga.py lines 31-49). -/
structure MangaState extends MediaState where
  volumes : Option Val
  chapters : Option Val
  published : Option Val
  authors : Option Val
  serialization : Option Val
  deriving DecidableEq, Repr

/-- Embedding of `Manga.__init__` (manga.py lines 31-49): validate the identity
raising `InvalidMangaError`, then run `Media.__init__` and add the
manga-specific unset slots. -/
def Manga.init (session : Session) (id : PyVal) : Except PyExn MangaState :=
  if ¬ id.isInt = true ∨ id.intVal < 1 then Except.error (PyExn.invalidManga id)
  else
    match Media.init session id with
    | Except.error e => Except.error e
    | Except.ok m => Except.ok
      { toMediaState := m, volumes := none, chapters := none, published := none,
        authors := none, serialization := none }

/-- State built by `Person.__init__` (person.py lines 20-29). -/
structure PersonState where
  id : Int
  name : Option Val
  voice_acting_roles : Option Val
  anime_staff_positions : Option Val
  published_manga : Option Val
  deriving DecidableEq, Repr

/-- Embedding of `Person.__init__` (person.py lines 20-29): record the identity,
raise `InvalidPersonError` unless it is an int at least 1, set slots to None. -/
def Person.init (_session : Session) (id : PyVal) : Except PyExn PersonState :=
  if ¬ id.isInt = true ∨ id.intVal < 1 then Except.error (PyExn.invalidPerson id)
  else Except.ok
    { id := id.intVal, name := none, voice_acting_roles := none,
      anime_staff_positions := none, published_manga := none }

/-- State built by `MediaList.__init__` (media_list.py lines 48-54). -/
structure MediaListState where
  username : String
  list : Option Val
  stats : Option Val
  deriving DecidableEq, Repr

/-- Embedding of `MediaList.__init__` (media_list.py lines 48-54): record the
username and raise `InvalidMediaListError` unless it is a unicode string of
length at least 4. `len` is only evaluated after the `isinstance` check held,
because `or` short-circuits. -/
def MediaList.init (_session : Session) (user_name : PyVal) : Except PyExn MediaListState :=
  if ¬ user_name.isUstr = true ∨ pyLen user_name < 4 then
    Except.error (PyExn.invalidMediaList (pyStrOf user_name))
  else Except.ok { username := pyStrOf user_name, list := none, stats := none }

/-- Parse-result mapping: field name to extracted value, in insertion order, as
the `media_info` dict built by the parsers. -/
abbrev Info := List (String × Val)

/-- Python dict assignment `media_info[key] = value`: replace the binding when
the key is present, otherwise append it. -/
def insertInfo : Info → String → Val → Info
  | [], k, v => [(k, v)]
  | (k0, v0) :: rest, k, v =>
    if k0 == k then (k, v) :: rest else (k0, v0) :: insertInfo rest k v

/-- Lookup in a parse-result mapping or attribute cache; `none` is the unset
sentinel. -/
def lookupInfo : Info → String → Option Val
  | [], _ => none
  | (k0, v0) :: rest, k => if k0 == k then some v0 else lookupInfo rest k

/-- The recurring per-field pattern of the parsers:
`try: media_info[key] = <extraction chain> except: if not suppress: raise`.
`outcome = some v` means the extraction chain for this field produced `v` on
this page; `outcome = none` means the chain raised. On failure the field is
left unset when suppression is on, and the original exception is re-raised
(modelled as `extractionError key`) when suppression is off. -/
def fieldStep (suppress : Bool) (key : String) (outcome : Option Val) (info : Info) :
    Except PyExn Info :=
  match outcome with
  | some v => Except.ok (insertInfo info key v)
  | none => if suppress then Except.ok info else Except.error (PyExn.extractionError key)

/-- The per-field extraction outcomes of a media page given to
`Media.parse_sidebar` and `Media.parse_stats`. Each `Option Val` field is the
outcome of the corresponding selector chain of media.py (`some v` = produced
`v`, `none` = raised). The four stats fields describe the status/score count
blocks of `Media.parse_stats` (lines 491-570): `..._blocks_ok = false` means
one of those try blocks raised, and `..._value` is the dict the blocks leave
behind to be committed. -/
structure MediaPage where
  badresult : Bool
  title : Option Val
  picture : Option Val
  alternative_titles : Option Val
  type : Option Val
  status : Option Val
  genres : Option Val
  score : Option Val
  rank : Option Val
  popularity : Option Val
  members : Option Val
  favorites : Option Val
  popular_tags : Option Val
  status_stats_blocks_ok : Bool
  status_stats_value : Val
  score_stats_blocks_ok : Bool
  score_stats_value : Val
  deriving DecidableEq, Repr

/-- The `media_page_original` argument of `Media.parse_sidebar`, when not None:
`infoPanelOk` records whether `media_page_original.select(...)[0]` at media.py
line 171 succeeds (`select` returning an empty list raises IndexError). -/
structure OrigPage where
  infoPanelOk : Bool
  deriving DecidableEq, Repr

/-- Embedding of `Media.parse_sidebar` (media.py lines 131-328).
Control flow, in source order:
lines 146-148: a `badresult` element raises `InvalidMediaError(self.id)` first;
lines 150-169: the two title try/except blocks, combined outcome `page.title`;
line 171: `info_panel_first = media_page_original.select(...)[0]` is OUTSIDE
every try/except: it raises AttributeError when `media_page_original` is None
and IndexError when the selector finds nothing, regardless of suppression;
lines 172-328: one suppressible field block per remaining field. -/
def Media.parse_sidebar (suppress : Bool) (id : Int) (page : MediaPage)
    (orig : Option OrigPage) : Except PyExn Info :=
  if page.badresult then Except.error (PyExn.invalidMedia (PyVal.int id))
  else
    (fieldStep suppress "title" page.title []).bind fun info =>
    match orig with
    | none => Except.error PyExn.attributeError
    | some o =>
      if ¬ o.infoPanelOk = true then Except.error PyExn.indexError
      else
        (fieldStep suppress "picture" page.picture info).bind fun info =>
        (fieldStep suppress "alternative_titles" page.alternative_titles info).bind fun info =>
        (fieldStep suppress "type" page.type info).bind fun info =>
        (fieldStep suppress "status" page.status info).bind fun info =>
        (fieldStep suppress "genres" page.genres info).bind fun info =>
        (fieldStep suppress "score" page.score info).bind fun info =>
        (fieldStep suppress "rank" page.rank info).bind fun info =>
        (fieldStep suppress "popularity" page.popularity info).bind fun info =>
        (fieldStep suppress "members" page.members info).bind fun info =>
        (fieldStep suppress "favorites" page.favorites info).bind fun info =>
        (fieldStep suppress "popular_tags" page.popular_tags info).bind fun info =>
        Except.ok info

/-- Embedding of `Media.parse_stats` (media.py lines 480-572). Line 490 calls
`self.parse_sidebar(media_page)` leaving `media_page_original` at its default
None. Lines 491-540 are per-status count try blocks under the suppression
flag; line 541 commits "status_stats" unconditionally; lines 543-568 likewise
for "score_stats" committed at line 570. -/
def Media.parse_stats (suppress : Bool) (id : Int) (page : MediaPage) :
    Except PyExn Info :=
  (Media.parse_sidebar suppress id page none).bind fun info =>
  (if ¬ page.status_stats_blocks_ok = true ∧ ¬ suppress = true then
      Except.error (PyExn.extractionError "status_stats")
    else Except.ok (insertInfo info "status_stats" page.status_stats_value)).bind fun info =>
  if ¬ page.score_stats_blocks_ok = true ∧ ¬ suppress = true then
    Except.error (PyExn.extractionError "score_stats")
  else Except.ok (insertInfo info "score_stats" page.score_stats_value)

/-- An anime page: the media page outcomes plus the anime-specific blocks of
`Anime.parse_sidebar`. `titleCheck` is the outcome of lines 99-105, which run
OUTSIDE any try/except: `none` means the title lookup succeeded, `some e` the
exception it raised (`MalformedAnimePageError` when the h1.h1 span fallback
hits IndexError, or an AttributeError from a missing contentWrapper). -/
structure AnimePage extends MediaPage where
  titleCheck : Option PyExn
  episodes : Option Val
  aired : Option Val
  producers : Option Val
  duration : Option Val
  rating : Option Val
  deriving DecidableEq, Repr

/-- Embedding of `Anime.parse_sidebar` (anime.py lines 80-180): the badresult
check raises `InvalidAnimeError` first (lines 95-97), then the unguarded title
lookup (lines 99-105), then `Media.parse_sidebar` via super, then one
suppressible field block each for episodes, aired, producers, duration and
rating. -/
def Anime.parse_sidebar (suppress : Bool) (id : Int) (page : AnimePage)
    (orig : Option OrigPage) : Except PyExn Info :=
  if page.badresult then Except.error (PyExn.invalidAnime (PyVal.int id))
  else
    match page.titleCheck with
    | some e => Except.error e
    | none =>
      (Media.parse_sidebar suppress id page.toMediaPage orig).bind fun info =>
      (fieldStep suppress "episodes" page.episodes info).bind fun info =>
      (fieldStep suppress "aired" page.aired info).bind fun info =>
      (fieldStep suppress "producers" page.producers info).bind fun info =>
      (fieldStep suppress "duration" page.duration info).bind fun info =>
      (fieldStep suppress "rating" page.rating info).bind fun info =>
      Except.ok info

/-- A manga page: the media page outcomes plus the manga-specific blocks of
`Manga.parse_sidebar`. `titleFound` is the lines 93-96 check (inside a
suppressible try/except). `publishedParts` is the outcome of lines 123-125:
`some parts` is `published_tag.text.strip().split(u" to ")`, `none` means that
chain raised. -/
structure MangaPage extends MediaPage where
  titleFound : Bool
  volumes : Option Val
  chapters : Option Val
  publishedParts : Option (List String)
  authors : Option Val
  serialization : Option Val
  deriving DecidableEq, Repr

/-- Embedding of manga.py lines 126-150, from `if len(published_parts) == 1` on.
`parseDate` stands for `utilities.parse_profile_date` (utilities.py is not part
of the sources); `none` models it raising ValueError. Line 141 compares the
WHOLE LIST `published_parts` with the string `u"?"` (`pyEq` of a list and a
string), so the still-publishing branch assigning `publish_end = None` requires
that comparison to be true. -/
def parse_published_parts (parseDate : String → Option Nat) (id : Int)
    (published_parts : List String) : Except PyExn Val :=
  if published_parts.length == 1 then
    match parseDate (published_parts.headD "") with
    | none => Except.error (PyExn.malformedMangaPage id)
    | some published_date => Except.ok (Val.pubOne published_date)
  else
    match parseDate (published_parts.headD "") with
    | none => Except.error (PyExn.malformedMangaPage id)
    | some publish_start =>
      if pyEq (PyVal.listOfStr published_parts) (PyVal.ustr "?") then
        Except.ok (Val.pubRange publish_start none)
      else
        match parseDate (published_parts.getD 1 "") with
        | none => Except.error (PyExn.malformedMangaPage id)
        | some publish_end => Except.ok (Val.pubRange publish_start (some publish_end))

/-- The whole published try block of `Manga.parse_sidebar` (manga.py lines
122-153): the outer bare except leaves the field unset under suppression and
re-raises otherwise, which also applies to the `MalformedMangaPageError` raised
inside the block. -/
def publishedStep (suppress : Bool) (parseDate : String → Option Nat) (id : Int)
    (pparts : Option (List String)) (info : Info) : Except PyExn Info :=
  match pparts with
  | none => if suppress then Except.ok info else Except.error (PyExn.extractionError "published")
  | some parts =>
    match parse_published_parts parseDate id parts with
    | Except.ok v => Except.ok (insertInfo info "published" v)
    | Except.error e => if suppress then Except.ok info else Except.error e

/-- Embedding of `Manga.parse_sidebar` (manga.py lines 73-175): the badresult
check raises `InvalidMangaError` first (lines 88-90); the title check (lines
92-99) raises `MalformedMangaPageError` only when suppression is off, being
inside a try/except; then `Media.parse_sidebar` via super, then the volumes,
chapters, published, authors and serialization blocks. -/
def Manga.parse_sidebar (suppress : Bool) (parseDate : String → Option Nat)
    (id : Int) (page : MangaPage) (orig : Option OrigPage) : Except PyExn Info :=
  if page.badresult then Except.error (PyExn.invalidManga (PyVal.int id))
  else if ¬ page.titleFound = true ∧ ¬ suppress = true then
    Except.error (PyExn.malformedMangaPage id)
  else
    (Media.parse_sidebar suppress id page.toMediaPage orig).bind fun info =>
    (fieldStep suppress "volumes" page.volumes info).bind fun info =>
    (fieldStep suppress "chapters" page.chapters info).bind fun info =>
    (publishedStep suppress parseDate id page.publishedParts info).bind fun info =>
    (fieldStep suppress "authors" page.authors info).bind fun info =>
    (fieldStep suppress "serialization" page.serialization info).bind fun info =>
    Except.ok info

/-- Python 2 `str.capitalize()`: first character uppercased, the rest
lowercased. -/
def pycapitalize (s : String) : String :=
  match s.data with
  | [] => ""
  | c :: cs => String.mk (c.toUpper :: cs.map Char.toLower)

/-- `Anime._status_terms` (anime.py lines 26-31). -/
def Anime.status_terms : List String :=
  ["Unknown", "Currently Airing", "Finished Airing", "Not yet aired"]

/-- `Manga._status_terms` (manga.py lines 23-28). -/
def Manga.status_terms : List String :=
  ["Unknown", "Publishing", "Finished", "Not yet published"]

/-- `MediaList.user_status_terms` (media_list.py lines 67-77): the fixed
ordinal table of user status texts, indexed by the status int. -/
def MediaList.user_status_terms (verb : String) : List String :=
  ["Unknown",
   pycapitalize verb ++ "ing",
   "Completed",
   "On-Hold",
   "Dropped",
   "Unknown",
   "Plan to " ++ pycapitalize verb]

/-- One row of the bulk list-export XML, with the text fields already converted
to their primitive reads: `series_start`/`series_end` and `my_start`/`my_finish`
are the outcomes of `utilities.parse_profile_date` on the respective date texts
(`none` = it raised ValueError, which the code turns into None), and the int
fields are the `int(...)` reads of the corresponding elements. -/
structure ListEntryRow where
  series_id : Nat
  series_title : String
  series_status : Nat
  series_start : Option Nat
  series_end : Option Nat
  series_picture : String
  my_start : Option Nat
  my_finish : Option Nat
  my_status : Nat
  my_score : Int
  my_last_updated : Nat
  deriving DecidableEq, Repr

/-- The media-side attributes built by `parse_entry_media_attributes`
(media_list.py lines 96-102). -/
structure EntryMedia where
  id : Nat
  title : String
  status : String
  aired : Option Nat × Option Nat
  picture : String
  deriving DecidableEq, Repr

/-- The per-entry mapping built by `parse_entry` (media_list.py lines 117-134). -/
structure EntryInfo where
  started : Option Nat
  finished : Option Nat
  status : String
  score : Option Int
  last_updated : Nat
  deriving DecidableEq, Repr

/-- Embedding of `MediaList.parse_entry_media_attributes` (media_list.py lines
79-102). `mediaStatusTerms` is `status_terms` of the media type of the list; the
lookup `status_terms[int(...)]` raises IndexError when the code is out of
range. -/
def MediaList.parse_entry_media_attributes (mediaStatusTerms : List String)
    (row : ListEntryRow) : Except PyExn EntryMedia :=
  match mediaStatusTerms.get? row.series_status with
  | none => Except.error PyExn.indexError
  | some st => Except.ok
    { id := row.series_id, title := row.series_title, status := st,
      aired := (row.series_start, row.series_end), picture := row.series_picture }

/-- Embedding of `MediaList.parse_entry` (media_list.py lines 104-135): build
the media attributes, then the entry mapping; the user status int indexes
`user_status_terms`, and a score of 0 is normalized to None. -/
def MediaList.parse_entry (verb : String) (mediaStatusTerms : List String)
    (row : ListEntryRow) : Except PyExn (EntryMedia × EntryInfo) :=
  (MediaList.parse_entry_media_attributes mediaStatusTerms row).bind fun media =>
  match (MediaList.user_status_terms verb).get? row.my_status with
  | none => Except.error PyExn.indexError
  | some st => Except.ok
    (media,
     { started := row.my_start, finished := row.my_finish, status := st,
       score := if row.my_score = 0 then none else some row.my_score,
       last_updated := row.my_last_updated })

/-- A bulk list-export document as seen by `MediaList.parse`: whether the
`myanimelist` root element is present (line 169), whether the `error` marker is
present (line 173), the `myinfo` stats element (line 177; `some v` abstracts the
`parse_stats` output on it, whose internals no claim touches), and the entry
rows found by `find_all(self.type)` (line 184). -/
structure ListPage where
  hasRoot : Bool
  hasError : Bool
  myinfo : Option Val
  rows : List ListEntryRow
  deriving DecidableEq, Repr

/-- Folding `parse_entry` over the entry rows (media_list.py lines 184-186),
propagating any exception. -/
def MediaList.parse_rows (verb : String) (mediaStatusTerms : List String) :
    List ListEntryRow → Except PyExn (List (EntryMedia × EntryInfo))
  | [] => Except.ok []
  | row :: rest =>
    (MediaList.parse_entry verb mediaStatusTerms row).bind fun e =>
    (MediaList.parse_rows verb mediaStatusTerms rest).bind fun es =>
    Except.ok (e :: es)

/-- Embedding of `MediaList.parse` (media_list.py lines 165-187), in source
order: a missing `myanimelist` root raises `MalformedMediaListPageError` (lines
169-171); an `error` element raises `InvalidMediaListError` (lines 173-175); a
missing `myinfo` element executes line 179, whose argument list references the
undefined name `html` (the variable in scope is `xml`), so Python raises
NameError before the intended `MalformedMediaListPageError` is even
constructed; otherwise the stats and the entry rows are parsed. -/
def MediaList.parse (verb : String) (mediaStatusTerms : List String)
    (username : String) (page : ListPage) : Except PyExn (Val × List (EntryMedia × EntryInfo)) :=
  if ¬ page.hasRoot = true then Except.error (PyExn.malformedMediaListPage username)
  else if page.hasError then Except.error (PyExn.invalidMediaList username)
  else
    match page.myinfo with
    | none => Except.error PyExn.nameError
    | some stats =>
      (MediaList.parse_rows verb mediaStatusTerms page.rows).bind fun entries =>
      Except.ok (stats, entries)

/-- Modelled from the spec: base.py is not among the sources; section 4.2 of the
spec describes its `loadable` decorator as follows: on read, if the backing
cache slot is unset, invoke the named fetch routine exactly once, merge the
resulting field mapping of the routine into the cache, then return the
requested slot. A resource is its attribute cache (absent key = unset None slot) plus a
count of fetch-routine invocations used to state the fetch-counting claims. -/
structure LazyResource where
  cache : Info
  fetchCount : Nat
  deriving DecidableEq, Repr

/-- Modelled from the spec: the `set` method of base.py, which merges a field
mapping into the attribute cache one binding at a time (spec section 4.2,
which says to merge the resulting field mapping of the routine into the
cache). -/
def setInfo (cache : Info) (fetched : Info) : Info :=
  fetched.foldl (fun c kv => insertInfo c kv.1 kv.2) cache

/-- Modelled from the spec: reading an attribute through the loadable wrapper.
`fetched` is the field mapping the named fetch routine returns. If the slot is
set, return it without fetching; otherwise invoke the routine once, merge its
mapping into the cache, and return the requested slot. -/
def readAttr (fetched : Info) (attr : String) (r : LazyResource) :
    LazyResource × Option Val :=
  match lookupInfo r.cache attr with
  | some v => (r, some v)
  | none =>
    let r2 : LazyResource := { cache := setInfo r.cache fetched, fetchCount := r.fetchCount + 1 }
    (r2, lookupInfo r2.cache attr)

/-- Modelled from the spec: the identity of a resource handle, a numeric ID or
a username (spec section 3). -/
inductive Ident where
  | byId (n : Int)
  | byName (s : String)
  deriving DecidableEq, Repr, Hashable

/-- Modelled from the spec: a resource handle as far as identity and equality
are concerned: concrete type, identity, and the current attribute cache (spec
sections 2 and 4.1). -/
structure Handle where
  ctype : String
  ident : Ident
  cache : Info

/-- Modelled from the spec: the identity-based equality of base.py (spec
section 4.1): two handles compare equal exactly when their concrete type and
identity agree; the attribute cache does not participate. -/
def Handle.eq (a b : Handle) : Bool :=
  a.ctype == b.ctype && a.ident == b.ident

/-- Modelled from the spec: the identity-based hash of base.py (spec section
4.1): a function of the concrete type and identity only. -/
def Handle.pyhash (a : Handle) : UInt64 :=
  hash (a.ctype, a.ident)

/-! Theorems. Helper lemmas about the cache operations come first, then one
theorem per specification claim. -/

/-- Looking up a key right after inserting it finds the inserted value. -/
theorem lookupInfo_insertInfo_self (c : Info) (k : String) (v : Val) :
    lookupInfo (insertInfo c k v) k = some v := by
  induction c with
  | nil => simp [insertInfo, lookupInfo]
  | cons kv rest ih =>
    obtain ⟨k0, v0⟩ := kv
    by_cases h : (k0 == k) = true
    · simp [insertInfo, lookupInfo, h]
    · simp [insertInfo, lookupInfo, h, ih]

/-- Inserting under a different key does not change a lookup. -/
theorem lookupInfo_insertInfo_ne (c : Info) {k0 k : String} (v0 : Val)
    (h : ¬ k0 = k) :
    lookupInfo (insertInfo c k0 v0) k = lookupInfo c k := by
  induction c with
  | nil => simp [insertInfo, lookupInfo, h]
  | cons kv rest ih =>
    obtain ⟨k1, v1⟩ := kv
    by_cases h1 : (k1 == k0) = true
    · have hk1 : k1 = k0 := by simpa using h1
      simp [insertInfo, lookupInfo, h1, hk1, h]
    · simp [insertInfo, lookupInfo, h1, ih]

/-- Merging a mapping none of whose keys is `attr` does not change the lookup
of `attr`. -/
theorem lookupInfo_setInfo_not_mem (f : Info) (c : Info) {attr : String}
    (h : ∀ kv ∈ f, ¬ kv.1 = attr) :
    lookupInfo (setInfo c f) attr = lookupInfo c attr := by
  induction f generalizing c with
  | nil => rfl
  | cons kv rest ih =>
    obtain ⟨k0, v0⟩ := kv
    have h0 : ¬ k0 = attr := h (k0, v0) (by simp)
    have hr : ∀ kv ∈ rest, ¬ kv.1 = attr := fun kv hm => h kv (by simp [hm])
    calc lookupInfo (setInfo (insertInfo c k0 v0) rest) attr
        = lookupInfo (insertInfo c k0 v0) attr := ih (insertInfo c k0 v0) hr
      _ = lookupInfo c attr := lookupInfo_insertInfo_ne c v0 h0

/-- Merging a duplicate-free mapping that binds `attr` to `v` makes the lookup
of `attr` yield `v`. -/
theorem lookupInfo_setInfo_of_lookup (f : Info) (c : Info) {attr : String} {v : Val}
    (hnd : (f.map Prod.fst).Nodup) (h : lookupInfo f attr = some v) :
    lookupInfo (setInfo c f) attr = some v := by
  induction f generalizing c with
  | nil => simp [lookupInfo] at h
  | cons kv rest ih =>
    obtain ⟨k0, v0⟩ := kv
    rw [List.map_cons, List.nodup_cons] at hnd
    by_cases h0 : (k0 == attr) = true
    · have hk : k0 = attr := by simpa using h0
      have hv : v0 = v := by
        have := h
        simp [lookupInfo, h0] at this
        exact this
      have hmem : ∀ kv ∈ rest, ¬ kv.1 = attr := by
        intro kv hm hk1
        apply hnd.1
        rw [hk, ← hk1]
        exact List.mem_map.mpr ⟨kv, hm, rfl⟩
      calc lookupInfo (setInfo (insertInfo c k0 v0) rest) attr
          = lookupInfo (insertInfo c k0 v0) attr :=
            lookupInfo_setInfo_not_mem rest (insertInfo c k0 v0) hmem
        _ = some v := by rw [hk, hv]; exact lookupInfo_insertInfo_self c attr v
    · have hrest : lookupInfo rest attr = some v := by
        have := h
        simpa [lookupInfo, h0] using this
      exact ih (insertInfo c k0 v0) hnd.2 hrest

/-- C1: reading an exposed attribute whose cache slot is unset invokes the
fetch routine named by its loadable wrapper exactly once (the fetch count
rises by exactly one), merges the returned field mapping into the cache, and
returns the requested slot; a second read of the same attribute then finds the
slot set and performs no further fetch, so reading the same attribute twice
performs at most one fetch. -/
theorem loadable_fetches_once_and_caches
    (r : LazyResource) (fetched : Info) (attr : String) (v : Val)
    (hunset : lookupInfo r.cache attr = none)
    (hnodup : (fetched.map Prod.fst).Nodup)
    (hfetch : lookupInfo fetched attr = some v) :
    (readAttr fetched attr r).1.fetchCount = r.fetchCount + 1 ∧
    (readAttr fetched attr r).1.cache = setInfo r.cache fetched ∧
    (readAttr fetched attr r).2 = some v ∧
    readAttr fetched attr (readAttr fetched attr r).1 =
      ((readAttr fetched attr r).1, some v) := by
  have hset : lookupInfo (setInfo r.cache fetched) attr = some v :=
    lookupInfo_setInfo_of_lookup fetched r.cache hnodup hfetch
  have h1 : readAttr fetched attr r =
      ({ cache := setInfo r.cache fetched, fetchCount := r.fetchCount + 1 }, some v) := by
    simp [readAttr, hunset, hset]
  refine ⟨by rw [h1], by rw [h1], by rw [h1], ?_⟩
  rw [h1]
  simp [readAttr, hset]

theorem loadable_fetches_once_and_caches_witness :
    (readAttr [("title", Val.str "t")] "title" ⟨[], 0⟩).1.fetchCount = 0 + 1 ∧
    (readAttr [("title", Val.str "t")] "title" ⟨[], 0⟩).1.cache =
      setInfo [] [("title", Val.str "t")] ∧
    (readAttr [("title", Val.str "t")] "title" ⟨[], 0⟩).2 = some (Val.str "t") ∧
    readAttr [("title", Val.str "t")] "title"
        (readAttr [("title", Val.str "t")] "title" ⟨[], 0⟩).1 =
      ((readAttr [("title", Val.str "t")] "title" ⟨[], 0⟩).1, some (Val.str "t")) :=
  loadable_fetches_once_and_caches ⟨[], 0⟩ [("title", Val.str "t")] "title"
    (Val.str "t") rfl (by decide) rfl

/-- C2: two resource handles of the same concrete type constructed with the
same identity compare equal and hash identically, regardless of which
attributes are currently cached in either handle. -/
theorem handles_equal_by_identity (t : String) (i : Ident) (c1 c2 : Info) :
    Handle.eq ⟨t, i, c1⟩ ⟨t, i, c2⟩ = true ∧
    Handle.pyhash ⟨t, i, c1⟩ = Handle.pyhash ⟨t, i, c2⟩ := by
  constructor
  · simp [Handle.eq]
  · rfl

/-- C3: an identity argument that is not a positive integer makes each
ID-keyed constructor raise its invalid-entity error, and a username that is
not a unicode string or is shorter than 4 characters makes the MediaList
constructor raise InvalidMediaListError. The constructors are pure functions
that model no network access, and their outcome does not depend on the
session and hence not on its suppress-parse-errors flag. -/
theorem constructors_validate_synchronously (s1 s2 : Session) (v : PyVal) :
    (¬ (v.isInt = true ∧ 1 ≤ v.intVal) →
      Media.init s1 v = Except.error (PyExn.invalidMedia v) ∧
      Anime.init s1 v = Except.error (PyExn.invalidAnime v) ∧
      Manga.init s1 v = Except.error (PyExn.invalidManga v) ∧
      Person.init s1 v = Except.error (PyExn.invalidPerson v)) ∧
    (¬ (v.isUstr = true ∧ 4 ≤ pyLen v) →
      MediaList.init s1 v = Except.error (PyExn.invalidMediaList (pyStrOf v))) ∧
    Media.init s1 v = Media.init s2 v ∧
    Anime.init s1 v = Anime.init s2 v ∧
    Manga.init s1 v = Manga.init s2 v ∧
    Person.init s1 v = Person.init s2 v ∧
    MediaList.init s1 v = MediaList.init s2 v := by
  refine ⟨?_, ?_, rfl, rfl, rfl, rfl, rfl⟩
  · intro h
    have hcond : ¬ v.isInt = true ∨ v.intVal < 1 := by
      by_cases hi : v.isInt = true
      · by_cases hl : v.intVal < 1
        · exact Or.inr hl
        · exact absurd ⟨hi, Int.not_lt.mp hl⟩ h
      · exact Or.inl hi
    exact ⟨by rw [Media.init, if_pos hcond], by rw [Anime.init, if_pos hcond],
           by rw [Manga.init, if_pos hcond], by rw [Person.init, if_pos hcond]⟩
  · intro h
    have hcond : ¬ v.isUstr = true ∨ pyLen v < 4 := by
      by_cases hi : v.isUstr = true
      · by_cases hl : pyLen v < 4
        · exact Or.inr hl
        · exact absurd ⟨hi, Nat.not_lt.mp hl⟩ h
      · exact Or.inl hi
    rw [MediaList.init, if_pos hcond]

theorem constructors_validate_synchronously_witness :
    ¬ ((PyVal.int 0).isInt = true ∧ 1 ≤ (PyVal.int 0).intVal) ∧
    ¬ ((PyVal.int 0).isUstr = true ∧ 4 ≤ pyLen (PyVal.int 0)) ∧
    Media.init ⟨true⟩ (PyVal.int 0) = Except.error (PyExn.invalidMedia (PyVal.int 0)) ∧
    Anime.init ⟨true⟩ (PyVal.int 0) = Except.error (PyExn.invalidAnime (PyVal.int 0)) ∧
    MediaList.init ⟨true⟩ (PyVal.int 0) =
      Except.error (PyExn.invalidMediaList (pyStrOf (PyVal.int 0))) ∧
    Media.init ⟨true⟩ (PyVal.int 0) = Media.init ⟨false⟩ (PyVal.int 0) :=
  ⟨by decide, by decide,
   ((constructors_validate_synchronously ⟨true⟩ ⟨false⟩ (PyVal.int 0)).1 (by decide)).1,
   ((constructors_validate_synchronously ⟨true⟩ ⟨false⟩ (PyVal.int 0)).1 (by decide)).2.1,
   (constructors_validate_synchronously ⟨true⟩ ⟨false⟩ (PyVal.int 0)).2.1 (by decide),
   (constructors_validate_synchronously ⟨true⟩ ⟨false⟩ (PyVal.int 0)).2.2.1⟩

/-- C4: constructing a resource with a valid positive integer identity
succeeds without any fetch: the constructor only records the identity and
initializes every attribute slot to the unset sentinel None. The embedded
constructors are pure functions whose whole output is shown here; fetching is
modelled only in the attribute read operation. -/
theorem construction_is_lazy (s : Session) (n : Int) (h : 1 ≤ n) :
    Media.init s (PyVal.int n) = Except.ok
      { id := n, title := none, picture := none, alternative_titles := none,
        type := none, status := none, genres := none, score := none, rank := none,
        popularity := none, members := none, favorites := none, popular_tags := none,
        synopsis := none, related := none, characters := none, score_stats := none,
        status_stats := none } ∧
    Anime.init s (PyVal.int n) = Except.ok
      { id := n, title := none, picture := none, alternative_titles := none,
        type := none, status := none, genres := none, score := none, rank := none,
        popularity := none, members := none, favorites := none, popular_tags := none,
        synopsis := none, related := none, characters := none, score_stats := none,
        status_stats := none, episodes := none, aired := none, producers := none,
        duration := none, rating := none, voice_actors := none, staff := none } ∧
    Manga.init s (PyVal.int n) = Except.ok
      { id := n, title := none, picture := none, alternative_titles := none,
        type := none, status := none, genres := none, score := none, rank := none,
        popularity := none, members := none, favorites := none, popular_tags := none,
        synopsis := none, related := none, characters := none, score_stats := none,
        status_stats := none, volumes := none, chapters := none, published := none,
        authors := none, serialization := none } ∧
    Person.init s (PyVal.int n) = Except.ok
      { id := n, name := none, voice_acting_roles := none,
        anime_staff_positions := none, published_manga := none } := by
  have hcond : ¬ (¬ (PyVal.int n).isInt = true ∨ (PyVal.int n).intVal < 1) := by
    simp [PyVal.isInt, PyVal.intVal]
    omega
  refine ⟨?_, ?_, ?_, ?_⟩
  · rw [Media.init, if_neg hcond]
    rfl
  · rw [Anime.init, if_neg hcond, Media.init, if_neg hcond]
    rfl
  · rw [Manga.init, if_neg hcond, Media.init, if_neg hcond]
    rfl
  · rw [Person.init, if_neg hcond]
    rfl

theorem construction_is_lazy_witness :
    Media.init ⟨true⟩ (PyVal.int 1) = Except.ok
      { id := 1, title := none, picture := none, alternative_titles := none,
        type := none, status := none, genres := none, score := none, rank := none,
        popularity := none, members := none, favorites := none, popular_tags := none,
        synopsis := none, related := none, characters := none, score_stats := none,
        status_stats := none } ∧
    Person.init ⟨true⟩ (PyVal.int 1) = Except.ok
      { id := 1, name := none, voice_acting_roles := none,
        anime_staff_positions := none, published_manga := none } :=
  ⟨(construction_is_lazy ⟨true⟩ 1 (by decide)).1,
   (construction_is_lazy ⟨true⟩ 1 (by decide)).2.2.2⟩

/-- C5: on a page whose Favorites extraction chain fails while every other
field chain succeeds, parsing the sidebar with suppression enabled commits all
the other fields and leaves only the favorites field unset; with suppression
disabled the favorites failure aborts the whole parse by re-raising. -/
theorem suppression_partial_population (idv : Int)
    (t p a ty st g sc r po m pt : Val) (sb cb : Bool) (sv cv : Val) :
    Media.parse_sidebar true idv
      { badresult := false, title := some t, picture := some p,
        alternative_titles := some a, type := some ty, status := some st,
        genres := some g, score := some sc, rank := some r, popularity := some po,
        members := some m, favorites := none, popular_tags := some pt,
        status_stats_blocks_ok := sb, status_stats_value := sv,
        score_stats_blocks_ok := cb, score_stats_value := cv }
      (some { infoPanelOk := true }) =
      Except.ok [("title", t), ("picture", p), ("alternative_titles", a),
        ("type", ty), ("status", st), ("genres", g), ("score", sc), ("rank", r),
        ("popularity", po), ("members", m), ("popular_tags", pt)] ∧
    lookupInfo [("title", t), ("picture", p), ("alternative_titles", a),
        ("type", ty), ("status", st), ("genres", g), ("score", sc), ("rank", r),
        ("popularity", po), ("members", m), ("popular_tags", pt)] "favorites" = none ∧
    Media.parse_sidebar false idv
      { badresult := false, title := some t, picture := some p,
        alternative_titles := some a, type := some ty, status := some st,
        genres := some g, score := some sc, rank := some r, popularity := some po,
        members := some m, favorites := none, popular_tags := some pt,
        status_stats_blocks_ok := sb, status_stats_value := sv,
        score_stats_blocks_ok := cb, score_stats_value := cv }
      (some { infoPanelOk := true }) =
      Except.error (PyExn.extractionError "favorites") :=
  ⟨rfl, rfl, rfl⟩

/-- C6: a page containing the not-found marker (badresult element) makes
Media.parse_sidebar, Anime.parse_sidebar and Manga.parse_sidebar raise the
respective invalid-entity error, whatever the suppression flag, the original
page argument and the outcomes of every other extraction chain are. The
badresult check runs first, so no malformed-page error can be produced. -/
theorem badresult_raises_invalid_entity (suppress : Bool) (idv : Int)
    (mp : MediaPage) (orig : Option OrigPage) (tc : Option PyExn)
    (e1 e2 e3 e4 e5 : Option Val) (tf : Bool) (v1 v2 : Option Val)
    (pp : Option (List String)) (a1 a2 : Option Val)
    (parseDate : String → Option Nat) :
    Media.parse_sidebar suppress idv { mp with badresult := true } orig =
      Except.error (PyExn.invalidMedia (PyVal.int idv)) ∧
    Anime.parse_sidebar suppress idv
      { toMediaPage := { mp with badresult := true }, titleCheck := tc,
        episodes := e1, aired := e2, producers := e3, duration := e4, rating := e5 }
      orig =
      Except.error (PyExn.invalidAnime (PyVal.int idv)) ∧
    Manga.parse_sidebar suppress parseDate idv
      { toMediaPage := { mp with badresult := true }, titleFound := tf,
        volumes := v1, chapters := v2, publishedParts := pp, authors := a1,
        serialization := a2 } orig =
      Except.error (PyExn.invalidManga (PyVal.int idv)) :=
  ⟨rfl, rfl, rfl⟩

/-- C7: a media-list entry row is mapped through the fixed ordinal user-status
table (0 Unknown, 1 the capitalized verb plus "ing", 2 Completed, 3 On-Hold,
4 Dropped, 6 "Plan to " plus the capitalized verb), and a score of 0 is
normalized to None; in particular a row with status code 2 and score 0 yields
an entry whose status is "Completed" and whose score is None. -/
theorem list_entry_status_and_score (verb : String) (terms : List String)
    (row : ListEntryRow) (st ust : String)
    (hterms : terms.get? row.series_status = some st)
    (hust : (MediaList.user_status_terms verb).get? row.my_status = some ust) :
    MediaList.user_status_terms verb =
      ["Unknown", pycapitalize verb ++ "ing", "Completed", "On-Hold", "Dropped",
       "Unknown", "Plan to " ++ pycapitalize verb] ∧
    MediaList.parse_entry verb terms row = Except.ok
      ({ id := row.series_id, title := row.series_title, status := st,
         aired := (row.series_start, row.series_end), picture := row.series_picture },
       { started := row.my_start, finished := row.my_finish, status := ust,
         score := if row.my_score = 0 then none else some row.my_score,
         last_updated := row.my_last_updated }) ∧
    (row.my_status = 2 → ust = "Completed") ∧
    (row.my_score = 0 →
      (if row.my_score = 0 then (none : Option Int) else some row.my_score) = none) := by
  refine ⟨rfl, ?_, ?_, ?_⟩
  · rw [MediaList.parse_entry, MediaList.parse_entry_media_attributes, hterms, hust]
    rfl
  · intro h2
    have h3 : (MediaList.user_status_terms verb).get? 2 = some "Completed" := rfl
    rw [h2, h3] at hust
    exact (Option.some_inj.mp hust).symm
  · intro h0
    rw [if_pos h0]

theorem list_entry_status_and_score_witness :
    MediaList.user_status_terms "watch" =
      ["Unknown", pycapitalize "watch" ++ "ing", "Completed", "On-Hold", "Dropped",
       "Unknown", "Plan to " ++ pycapitalize "watch"] ∧
    MediaList.parse_entry "watch" Anime.status_terms
      { series_id := 1, series_title := "x", series_status := 2,
        series_start := none, series_end := none, series_picture := "pic",
        my_start := none, my_finish := none, my_status := 2, my_score := 0,
        my_last_updated := 5 } = Except.ok
      ({ id := 1, title := "x", status := "Finished Airing",
         aired := (none, none), picture := "pic" },
       { started := none, finished := none, status := "Completed",
         score := if (0 : Int) = 0 then none else some 0, last_updated := 5 }) ∧
    "Completed" = "Completed" ∧
    (if (0 : Int) = 0 then (none : Option Int) else some 0) = none := by
  have h := list_entry_status_and_score "watch" Anime.status_terms
    { series_id := 1, series_title := "x", series_status := 2,
      series_start := none, series_end := none, series_picture := "pic",
      my_start := none, my_finish := none, my_status := 2, my_score := 0,
      my_last_updated := 5 } "Finished Airing" "Completed" rfl rfl
  exact ⟨h.1, h.2.1, h.2.2.1 rfl, h.2.2.2 rfl⟩

/-- C8 counterexample: parsing a document that lacks the myanimelist root
element raises MalformedMediaListPageError, not the invalid-username error the
claim states. -/
theorem list_parse_missing_root_counterexample :
    MediaList.parse "watch" Anime.status_terms "someuser"
      { hasRoot := false, hasError := false, myinfo := none, rows := [] } =
      Except.error (PyExn.malformedMediaListPage "someuser") ∧
    MediaList.parse "watch" Anime.status_terms "someuser"
      { hasRoot := false, hasError := false, myinfo := none, rows := [] } ≠
      Except.error (PyExn.invalidMediaList "someuser") := by
  refine ⟨rfl, ?_⟩
  intro h
  have h0 : MediaList.parse "watch" Anime.status_terms "someuser"
      { hasRoot := false, hasError := false, myinfo := none, rows := [] } =
      Except.error (PyExn.malformedMediaListPage "someuser") := rfl
  rw [h0] at h
  exact PyExn.noConfusion (Except.error.inj h)

/-- C8 (amended): MediaList.parse raises MalformedMediaListPageError when the
myanimelist root element is missing; raises InvalidMediaListError when the
page carries the error marker; and when the myinfo stats element is missing it
reaches the raise statement at media_list.py line 179, whose argument list
names the undefined variable html, so a NameError is raised instead of the
intended MalformedMediaListPageError. -/
theorem list_parse_error_discrimination (verb : String) (terms : List String)
    (username : String) (page : ListPage) :
    (page.hasRoot = false →
      MediaList.parse verb terms username page =
        Except.error (PyExn.malformedMediaListPage username)) ∧
    (page.hasRoot = true → page.hasError = true →
      MediaList.parse verb terms username page =
        Except.error (PyExn.invalidMediaList username)) ∧
    (page.hasRoot = true → page.hasError = false → page.myinfo = none →
      MediaList.parse verb terms username page = Except.error PyExn.nameError) := by
  obtain ⟨hr, he, mi, rows⟩ := page
  refine ⟨fun h => ?_, fun h1 h2 => ?_, fun h1 h2 h3 => ?_⟩
  · subst h; rfl
  · subst h1; subst h2; rfl
  · subst h1; subst h2; subst h3; rfl

theorem list_parse_error_discrimination_witness :
    MediaList.parse "watch" Anime.status_terms "someuser"
      { hasRoot := false, hasError := false, myinfo := some (Val.nat 0), rows := [] } =
      Except.error (PyExn.malformedMediaListPage "someuser") ∧
    MediaList.parse "watch" Anime.status_terms "someuser"
      { hasRoot := true, hasError := true, myinfo := some (Val.nat 0), rows := [] } =
      Except.error (PyExn.invalidMediaList "someuser") ∧
    MediaList.parse "watch" Anime.status_terms "someuser"
      { hasRoot := true, hasError := false, myinfo := none, rows := [] } =
      Except.error PyExn.nameError :=
  ⟨(list_parse_error_discrimination "watch" Anime.status_terms "someuser"
      { hasRoot := false, hasError := false, myinfo := some (Val.nat 0), rows := [] }).1 rfl,
   (list_parse_error_discrimination "watch" Anime.status_terms "someuser"
      { hasRoot := true, hasError := true, myinfo := some (Val.nat 0), rows := [] }).2.1 rfl rfl,
   (list_parse_error_discrimination "watch" Anime.status_terms "someuser"
      { hasRoot := true, hasError := false, myinfo := none, rows := [] }).2.2 rfl rfl rfl⟩

/-- C9 counterexample: on a page carrying the not-found marker, parse_stats
raises InvalidMediaError, not an AttributeError, so the claim that EVERY
parse_stats invocation raises an AttributeError is false as stated. -/
theorem parse_stats_badresult_counterexample :
    Media.parse_stats true 7
      { badresult := true, title := none, picture := none,
        alternative_titles := none, type := none, status := none, genres := none,
        score := none, rank := none, popularity := none, members := none,
        favorites := none, popular_tags := none, status_stats_blocks_ok := true,
        status_stats_value := Val.nat 0, score_stats_blocks_ok := true,
        score_stats_value := Val.nat 0 } =
      Except.error (PyExn.invalidMedia (PyVal.int 7)) ∧
    Media.parse_stats true 7
      { badresult := true, title := none, picture := none,
        alternative_titles := none, type := none, status := none, genres := none,
        score := none, rank := none, popularity := none, members := none,
        favorites := none, popular_tags := none, status_stats_blocks_ok := true,
        status_stats_value := Val.nat 0, score_stats_blocks_ok := true,
        score_stats_value := Val.nat 0 } ≠
      Except.error PyExn.attributeError := by
  refine ⟨rfl, ?_⟩
  intro h
  have h0 : Media.parse_stats true 7
      { badresult := true, title := none, picture := none,
        alternative_titles := none, type := none, status := none, genres := none,
        score := none, rank := none, popularity := none, members := none,
        favorites := none, popular_tags := none, status_stats_blocks_ok := true,
        status_stats_value := Val.nat 0, score_stats_blocks_ok := true,
        score_stats_value := Val.nat 0 } =
      Except.error (PyExn.invalidMedia (PyVal.int 7)) := rfl
  rw [h0] at h
  exact PyExn.noConfusion (Except.error.inj h)

/-- C9 (amended): Media.parse_sidebar dereferences media_page_original outside
every try/except at the info-panel lookup, so whenever that lookup fails
(original page None, or empty selector result) the parse raises and commits no
field at all, even under suppression; Media.parse_stats calls parse_sidebar
with media_page_original left at None, so it never succeeds, and on every page
without the not-found marker it raises exactly the AttributeError of the
None dereference whenever suppression is on or the title step succeeded. -/
theorem parse_stats_always_fails (suppress : Bool) (idv : Int) (page : MediaPage) :
    (∀ o : OrigPage, o.infoPanelOk = false →
      ∀ info, Media.parse_sidebar suppress idv page (some o) ≠ Except.ok info) ∧
    (∀ info, Media.parse_sidebar suppress idv page none ≠ Except.ok info) ∧
    (∀ info, Media.parse_stats suppress idv page ≠ Except.ok info) ∧
    (page.badresult = false → (suppress = true ∨ page.title.isSome = true) →
      Media.parse_stats suppress idv page = Except.error PyExn.attributeError) := by
  have hnone : ∀ info, Media.parse_sidebar suppress idv page none ≠ Except.ok info := by
    intro info h
    cases hb : page.badresult with
    | true => simp [Media.parse_sidebar, hb] at h
    | false =>
      cases hf : fieldStep suppress "title" page.title [] with
      | error e => simp [Media.parse_sidebar, hb, hf, Except.bind] at h
      | ok i2 => simp [Media.parse_sidebar, hb, hf, Except.bind] at h
  refine ⟨?_, hnone, ?_, ?_⟩
  · intro o ho info h
    cases hb : page.badresult with
    | true => simp [Media.parse_sidebar, hb] at h
    | false =>
      cases hf : fieldStep suppress "title" page.title [] with
      | error e => simp [Media.parse_sidebar, hb, hf, Except.bind] at h
      | ok i2 => simp [Media.parse_sidebar, hb, hf, ho, Except.bind] at h
  · intro info h
    cases hs : Media.parse_sidebar suppress idv page none with
    | ok i => exact hnone i hs
    | error e => simp [Media.parse_stats, hs, Except.bind] at h
  · intro hb hsup
    cases ht : page.title with
    | some v =>
      simp [Media.parse_stats, Media.parse_sidebar, hb, ht, fieldStep, Except.bind]
    | none =>
      rcases hsup with hs | hs
      · subst hs
        simp [Media.parse_stats, Media.parse_sidebar, hb, ht, fieldStep, Except.bind]
      · rw [ht] at hs
        simp at hs

theorem parse_stats_always_fails_witness :
    Media.parse_stats true 3
      { badresult := false, title := some (Val.str "t"), picture := none,
        alternative_titles := none, type := none, status := none, genres := none,
        score := none, rank := none, popularity := none, members := none,
        favorites := none, popular_tags := none, status_stats_blocks_ok := true,
        status_stats_value := Val.nat 0, score_stats_blocks_ok := true,
        score_stats_value := Val.nat 0 } =
      Except.error PyExn.attributeError ∧
    (∀ info, Media.parse_stats true 3
      { badresult := false, title := some (Val.str "t"), picture := none,
        alternative_titles := none, type := none, status := none, genres := none,
        score := none, rank := none, popularity := none, members := none,
        favorites := none, popular_tags := none, status_stats_blocks_ok := true,
        status_stats_value := Val.nat 0, score_stats_blocks_ok := true,
        score_stats_value := Val.nat 0 } ≠ Except.ok info) :=
  ⟨(parse_stats_always_fails true 3
      { badresult := false, title := some (Val.str "t"), picture := none,
        alternative_titles := none, type := none, status := none, genres := none,
        score := none, rank := none, popularity := none, members := none,
        favorites := none, popular_tags := none, status_stats_blocks_ok := true,
        status_stats_value := Val.nat 0, score_stats_blocks_ok := true,
        score_stats_value := Val.nat 0 }).2.2.2 rfl (Or.inl rfl),
   (parse_stats_always_fails true 3
      { badresult := false, title := some (Val.str "t"), picture := none,
        alternative_titles := none, type := none, status := none, genres := none,
        score := none, rank := none, popularity := none, members := none,
        favorites := none, popular_tags := none, status_stats_blocks_ok := true,
        status_stats_value := Val.nat 0, score_stats_blocks_ok := true,
        score_stats_value := Val.nat 0 }).2.2.1⟩

/-- C10: on a published text of the two-part form with second part "?", the
guard at manga.py line 141 compares the parts LIST with the string "?" and is
always false, so the parser attempts to parse "?" as a date and raises
MalformedMangaPageError; the published block re-raises it when suppression is
off and leaves the published field unset when suppression is on, and the
open-ended result pairing the start date with None is never produced. -/
theorem manga_published_open_range_unreachable
    (parseDate : String → Option Nat) (idv : Int) (s : String) (d : Nat)
    (info : Info) (hs : parseDate s = some d) (hq : parseDate "?" = none) :
    pyEq (PyVal.listOfStr [s, "?"]) (PyVal.ustr "?") = false ∧
    parse_published_parts parseDate idv [s, "?"] =
      Except.error (PyExn.malformedMangaPage idv) ∧
    (∀ v, parse_published_parts parseDate idv [s, "?"] ≠ Except.ok v) ∧
    publishedStep false parseDate idv (some [s, "?"]) info =
      Except.error (PyExn.malformedMangaPage idv) ∧
    publishedStep true parseDate idv (some [s, "?"]) info = Except.ok info := by
  have hred : parse_published_parts parseDate idv [s, "?"] =
      match parseDate s with
      | none => Except.error (PyExn.malformedMangaPage idv)
      | some publish_start =>
        match parseDate "?" with
        | none => Except.error (PyExn.malformedMangaPage idv)
        | some publish_end => Except.ok (Val.pubRange publish_start (some publish_end)) := rfl
  have h2 : parse_published_parts parseDate idv [s, "?"] =
      Except.error (PyExn.malformedMangaPage idv) := by
    rw [hred, hs, hq]
  refine ⟨rfl, h2, ?_, ?_, ?_⟩
  · intro v h
    rw [h2] at h
    exact Except.noConfusion h
  · rw [publishedStep, h2]
    rfl
  · rw [publishedStep, h2]
    rfl

theorem manga_published_open_range_unreachable_witness :
    pyEq (PyVal.listOfStr ["Feb 24, 2003", "?"]) (PyVal.ustr "?") = false ∧
    parse_published_parts (fun u => if u = "Feb 24, 2003" then some 1 else none) 9
        ["Feb 24, 2003", "?"] =
      Except.error (PyExn.malformedMangaPage 9) ∧
    (∀ v, parse_published_parts (fun u => if u = "Feb 24, 2003" then some 1 else none) 9
        ["Feb 24, 2003", "?"] ≠ Except.ok v) ∧
    publishedStep false (fun u => if u = "Feb 24, 2003" then some 1 else none) 9
        (some ["Feb 24, 2003", "?"]) [] =
      Except.error (PyExn.malformedMangaPage 9) ∧
    publishedStep true (fun u => if u = "Feb 24, 2003" then some 1 else none) 9
        (some ["Feb 24, 2003", "?"]) [] = Except.ok [] :=
  manga_published_open_range_unreachable
    (fun u => if u = "Feb 24, 2003" then some 1 else none) 9 "Feb 24, 2003" 1 []
    (by decide) (by decide)

end Mal
